import Mathlib

/-
Verification development for the nvidia_oc GPU-overclocking tool
(src/src/main.rs). The Rust source is shallowly embedded below:
device interaction is modelled by a `Device` record of query results
and write outcomes, and every function that issues hardware calls
additionally returns the ordered trace of the calls it issued.
-/

set_option autoImplicit false

namespace NvidiaOc

/-- Error variants of the vendor management library that the source
matches on (the `NvmlError` enum of the nvml wrapper). -/
inductive NvmlError where
  | invalidArg
  | notSupported
  | unknown
  | uninitialized
  | noPermission
  deriving DecidableEq

/-- Debug rendering of an `NvmlError`, mirroring the Rust derive of
Debug that the source interpolates with the debug format specifier. -/
def reprNvmlError : NvmlError → String
  | NvmlError.invalidArg => "InvalidArg"
  | NvmlError.notSupported => "NotSupported"
  | NvmlError.unknown => "Unknown"
  | NvmlError.uninitialized => "Uninitialized"
  | NvmlError.noPermission => "NoPermission"

/-- The temperature-threshold selector passed to the raw vendor calls
(ACOUSTIC_CURR / ACOUSTIC_MIN / ACOUSTIC_MAX). -/
inductive ThresholdKind where
  | curr
  | min
  | max
  deriving DecidableEq

/-- The applier-level write calls `Sets::apply` can issue on a device:
the five structured setters of the management binding plus the raw
bridge entry `set_acoustic_temperature` (src/src/main.rs:81-149). -/
inductive WriteCall where
  | setGpcClockVfOffset (v : Int)
  | setMemClockVfOffset (v : Int)
  | setPowerManagementLimit (v : Nat)
  | setGpuLockedClocks (minClock maxClock : Nat)
  | setMemLockedClocks (minClock maxClock : Nat)
  | setTargetTemp (v : Nat)
  deriving DecidableEq

/-- The raw vendor-library call issued by the threshold bridge
(nvmlDeviceSetTemperatureThreshold with the ACOUSTIC_CURR selector),
carrying the signed value the source passes to it. -/
inductive RawCall where
  | setTempThreshold (v : Int)
  deriving DecidableEq

/-- The six optional settings fields of `struct Sets`
(src/src/main.rs:51-78), a locked clock range counting as one field. -/
inductive SpecField where
  | freq
  | mem
  | power
  | coreRange
  | memRange
  | temp
  deriving DecidableEq

/-- `struct Sets` (src/src/main.rs:48-78): the optional per-device
settings bundle, fields in source order. -/
structure Sets where
  freq_offset : Option Int
  mem_offset : Option Int
  power_limit : Option Nat
  min_clock : Option Nat
  max_clock : Option Nat
  min_mem_clock : Option Nat
  max_mem_clock : Option Nat
  target_temp : Option Nat

/-- The device environment: outcomes of every query and write the
source can perform on one GPU. `writeRes c = none` means the write
succeeds; `lib1` / `lib2` say whether the two candidate vendor
dynamic-library names (libnvidia-ml.so.1, then libnvidia-ml.so) load;
`rawSetRet` / `rawGetRet` give the raw vendor return code (0 is
NVML_SUCCESS) and, for queries, the out-parameter value. -/
structure Device where
  gpcOffsetRead : Except NvmlError Int
  memOffsetRead : Except NvmlError Int
  enforcedPowerLimit : Except NvmlError Nat
  powerConstraints : Except NvmlError (Nat × Nat)
  writeRes : WriteCall → Option NvmlError
  lib1 : Bool
  lib2 : Bool
  loadErr : String
  rawSetRet : Int → Nat
  rawGetRet : ThresholdKind → Nat × Nat

/-- The Rust cast from u32 to i32 (`temp_celsius as i32`,
src/src/main.rs:282): two's-complement reinterpretation modulo 2^32. -/
def u32ToI32 (n : Nat) : Int :=
  let m : Nat := n % 2 ^ 32
  if m < 2 ^ 31 then (m : Int) else (m : Int) - 2 ^ 32

/-- `set_acoustic_temperature` (src/src/main.rs:280-304): probes the
two candidate library names; on load failure returns the load-error
string without any raw call; otherwise issues the raw threshold write
with the value cast to i32 and reports the vendor code on failure. -/
def set_acoustic_temperature (d : Device) (tempCelsius : Nat) :
    List RawCall × Option String :=
  if d.lib1 || d.lib2 then
    let v := u32ToI32 tempCelsius
    let code := d.rawSetRet v
    ([RawCall.setTempThreshold v],
      if code = 0 then none else some ("NVML error code: " ++ toString code))
  else
    ([], some ("Failed to load NVML library: " ++ d.loadErr))

/-- `get_acoustic_temperature` (src/src/main.rs:307-330): returns none
when neither candidate library loads or the raw query fails. -/
def get_acoustic_temperature (d : Device) : Option Nat :=
  if d.lib1 || d.lib2 then
    let r := d.rawGetRet ThresholdKind.curr
    if r.1 = 0 then some r.2 else none
  else none

/-- `get_acoustic_temperature_range` (src/src/main.rs:333-374): on
library load failure returns (none, none); otherwise min and max are
queried independently. -/
def get_acoustic_temperature_range (d : Device) : Option Nat × Option Nat :=
  if d.lib1 || d.lib2 then
    let rmin := d.rawGetRet ThresholdKind.min
    let rmax := d.rawGetRet ThresholdKind.max
    (if rmin.1 = 0 then some rmin.2 else none,
     if rmax.1 = 0 then some rmax.2 else none)
  else (none, none)

/-- The enriched out-of-range message of the power-limit step
(src/src/main.rs:98-110): the range suffix is appended only when the
constraints query succeeds, with both milliwatt and derived watt
bounds. -/
def powerLimitOutOfRangeMsg (limit : Nat)
    (constraints : Except NvmlError (Nat × Nat)) : String :=
  let base := "Failed to set GPU power limit: " ++ toString limit ++
    " mW is out of range."
  match constraints with
  | Except.ok (mn, mx) =>
      base ++ " Valid range: " ++ toString mn ++ "-" ++ toString mx ++
        " mW (" ++ toString (mn / 1000) ++ "-" ++ toString (mx / 1000) ++ " W)"
  | Except.error _ => base

/-- Sequencing of two applier steps: the second runs only when the
first did not abort, and traces concatenate (models Rust's straight
line of statements where a failing step terminates the process). -/
def seqStep (a b : List WriteCall × Option String) :
    List WriteCall × Option String :=
  match a.2 with
  | some e => (a.1, some e)
  | none => (a.1 ++ b.1, b.2)

/-- Core frequency offset step (src/src/main.rs:82-86). -/
def stepFreq (s : Sets) (d : Device) : List WriteCall × Option String :=
  match s.freq_offset with
  | none => ([], none)
  | some v =>
    let c := WriteCall.setGpcClockVfOffset v
    ([c], match d.writeRes c with
      | none => none
      | some e => some ("Failed to set GPU frequency offset: " ++ reprNvmlError e))

/-- Memory frequency offset step (src/src/main.rs:88-92). -/
def stepMem (s : Sets) (d : Device) : List WriteCall × Option String :=
  match s.mem_offset with
  | none => ([], none)
  | some v =>
    let c := WriteCall.setMemClockVfOffset v
    ([c], match d.writeRes c with
      | none => none
      | some e => some ("Failed to set GPU memory frequency offset: " ++ reprNvmlError e))

/-- The abort message of the power-limit step (src/src/main.rs:96-114):
only an InvalidArg rejection gets the range-enriched message; any other
rejection gets the plain debug message. -/
def powerFailMsg (limit : Nat) (d : Device) : NvmlError → String
  | NvmlError.invalidArg => powerLimitOutOfRangeMsg limit d.powerConstraints
  | e => "Failed to set GPU power limit: " ++ reprNvmlError e

/-- Power limit step (src/src/main.rs:94-116). -/
def stepPower (s : Sets) (d : Device) : List WriteCall × Option String :=
  match s.power_limit with
  | none => ([], none)
  | some limit =>
    let c := WriteCall.setPowerManagementLimit limit
    ([c], match d.writeRes c with
      | none => none
      | some e => some (powerFailMsg limit d e))

/-- Locked core clock step (src/src/main.rs:118-127): runs only when
both the min and the max clock are present. -/
def stepCoreClocks (s : Sets) (d : Device) : List WriteCall × Option String :=
  match s.min_clock, s.max_clock with
  | some mn, some mx =>
    let c := WriteCall.setGpuLockedClocks mn mx
    ([c], match d.writeRes c with
      | none => none
      | some e => some ("Failed to set GPU min and max clocks: " ++ reprNvmlError e))
  | _, _ => ([], none)

/-- Locked memory clock step (src/src/main.rs:129-134). -/
def stepMemClocks (s : Sets) (d : Device) : List WriteCall × Option String :=
  match s.min_mem_clock, s.max_mem_clock with
  | some mn, some mx =>
    let c := WriteCall.setMemLockedClocks mn mx
    ([c], match d.writeRes c with
      | none => none
      | some e => some ("Failed to set GPU min and max memory clocks: " ++ reprNvmlError e))
  | _, _ => ([], none)

/-- The abort message of the target-temperature step
(src/src/main.rs:138-146): the acoustic range is queried and appended
only when both bounds are obtainable. -/
def tempFailMsg (d : Device) (t : Nat) (e : String) : String :=
  let base := "Failed to set target temperature: " ++ toString t ++ "°C - " ++ e
  match get_acoustic_temperature_range d with
  | (some mn, some mx) =>
      base ++ " Valid range: " ++ toString mn ++ "°C - " ++ toString mx ++ "°C"
  | _ => base

/-- Target temperature step (src/src/main.rs:136-148): calls the raw
bridge; on failure queries the acoustic range and appends it to the
message when both bounds are obtainable. -/
def stepTemp (s : Sets) (d : Device) : List WriteCall × Option String :=
  match s.target_temp with
  | none => ([], none)
  | some t =>
    ([WriteCall.setTargetTemp t],
      match (set_acoustic_temperature d t).2 with
      | none => none
      | some e => some (tempFailMsg d t e))

/-- `Sets::apply` (src/src/main.rs:81-149): the six steps in source
order, each failure aborting the remaining steps; the first component
is the ordered trace of issued write calls, the second the abort
message, if any. -/
def Sets.apply (s : Sets) (d : Device) : List WriteCall × Option String :=
  seqStep (stepFreq s d)
    (seqStep (stepMem s d)
      (seqStep (stepPower s d)
        (seqStep (stepCoreClocks s d)
          (seqStep (stepMemClocks s d) (stepTemp s d)))))

/-- The calls the core-offset field contributes when present. -/
def freqCalls (s : Sets) : List WriteCall :=
  match s.freq_offset with
  | some v => [WriteCall.setGpcClockVfOffset v]
  | none => []

/-- The calls the memory-offset field contributes when present. -/
def memCalls (s : Sets) : List WriteCall :=
  match s.mem_offset with
  | some v => [WriteCall.setMemClockVfOffset v]
  | none => []

/-- The calls the power-limit field contributes when present. -/
def powerCalls (s : Sets) : List WriteCall :=
  match s.power_limit with
  | some v => [WriteCall.setPowerManagementLimit v]
  | none => []

/-- The calls the locked core clock range contributes when both bounds
are present. -/
def coreClockCalls (s : Sets) : List WriteCall :=
  match s.min_clock, s.max_clock with
  | some mn, some mx => [WriteCall.setGpuLockedClocks mn mx]
  | _, _ => []

/-- The calls the locked memory clock range contributes when both
bounds are present. -/
def memClockCalls (s : Sets) : List WriteCall :=
  match s.min_mem_clock, s.max_mem_clock with
  | some mn, some mx => [WriteCall.setMemLockedClocks mn mx]
  | _, _ => []

/-- The calls the target-temperature field contributes when present. -/
def tempCalls (s : Sets) : List WriteCall :=
  match s.target_temp with
  | some t => [WriteCall.setTargetTemp t]
  | none => []

/-- The full write-call list of a spec in the fixed application order:
core offset, memory offset, power limit, locked core clocks, locked
memory clocks, target temperature. -/
def expectedCalls (s : Sets) : List WriteCall :=
  freqCalls s ++ (memCalls s ++ (powerCalls s ++ (coreClockCalls s ++
    (memClockCalls s ++ tempCalls s))))

/-- The settings field a write call targets. -/
def callField : WriteCall → SpecField
  | WriteCall.setGpcClockVfOffset _ => SpecField.freq
  | WriteCall.setMemClockVfOffset _ => SpecField.mem
  | WriteCall.setPowerManagementLimit _ => SpecField.power
  | WriteCall.setGpuLockedClocks _ _ => SpecField.coreRange
  | WriteCall.setMemLockedClocks _ _ => SpecField.memRange
  | WriteCall.setTargetTemp _ => SpecField.temp

/-- Whether a field of a spec is populated; a locked clock range
counts as populated only when both bounds are present, matching the
pattern the source applies (src/src/main.rs:118, 129). -/
def populated (s : Sets) : SpecField → Bool
  | SpecField.freq => s.freq_offset.isSome
  | SpecField.mem => s.mem_offset.isSome
  | SpecField.power => s.power_limit.isSome
  | SpecField.coreRange => s.min_clock.isSome && s.max_clock.isSome
  | SpecField.memRange => s.min_mem_clock.isSome && s.max_mem_clock.isSome
  | SpecField.temp => s.target_temp.isSome

/-- Whether the device accepts a given write call. -/
def callOk (d : Device) : WriteCall → Prop
  | WriteCall.setTargetTemp t => (set_acoustic_temperature d t).2 = none
  | c => d.writeRes c = none

/-- Whether the pattern matches at the head of the haystack. -/
def matchesAt : List Char → List Char → Bool
  | [], _ => true
  | _ :: _, [] => false
  | a :: as, b :: bs => a == b && matchesAt as bs

/-- Whether the pattern occurs contiguously somewhere in the haystack. -/
def hasSub (pat : List Char) : List Char → Bool
  | [] => matchesAt pat []
  | c :: rest => matchesAt pat (c :: rest) || hasSub pat rest

/-- Substring test on strings, used to state that diagnostic messages
mention particular values. -/
def strHasSub (hay pat : String) : Bool :=
  hasSub pat.data hay.data

/-- The three privilege-escalation tools probed by the source. -/
inductive Tool where
  | sudo
  | doas
  | pkexec
  deriving DecidableEq

/-- The host environment seen by the privilege gate: whether the
process is already root, which escalation tools are on the PATH, and
the outcome of invoking each tool (none means the re-execution
succeeds). -/
structure EscSys where
  runningAsRoot : Bool
  hasSudo : Bool
  hasDoas : Bool
  hasPkexec : Bool
  toolRes : Tool → Option String

/-- The message of the terminal branch of `escalate_permissions`
(src/src/main.rs:258). -/
def escalateFailMsg : String :=
  "Please install sudo, doas or pkexec and try again. Alternatively, run the program as root."

/-- `escalate_permissions` (src/src/main.rs:246-262): immediate success
when already root; otherwise the first present tool among sudo, doas,
pkexec is invoked (its own failure propagates); with none present the
call fails with the install-advice message. The first component is the
trace of tools actually invoked. -/
def escalate_permissions (sys : EscSys) : List Tool × Except String (Option Tool) :=
  if sys.runningAsRoot then ([], Except.ok none)
  else if sys.hasSudo then
    ([Tool.sudo], match sys.toolRes Tool.sudo with
      | none => Except.ok (some Tool.sudo)
      | some e => Except.error e)
  else if sys.hasDoas then
    ([Tool.doas], match sys.toolRes Tool.doas with
      | none => Except.ok (some Tool.doas)
      | some e => Except.error e)
  else if sys.hasPkexec then
    ([Tool.pkexec], match sys.toolRes Tool.pkexec with
      | none => Except.ok (some Tool.pkexec)
      | some e => Except.error e)
  else ([], Except.error escalateFailMsg)

/-- The extra escalation chain of the Set arm (src/src/main.rs:164-167):
escalate_if_needed, falling back to doas, then to pkexec; the final
failure is pkexec's. -/
def sudoChainRes (sys : EscSys) : Option String :=
  if sys.runningAsRoot then none
  else
    match sys.toolRes Tool.sudo with
    | none => none
    | some _ =>
      match sys.toolRes Tool.doas with
      | none => none
      | some _ => sys.toolRes Tool.pkexec

/-- One iteration of the config loop (src/src/main.rs:234-237): resolve
the device by index (aborting when absent) and apply the entry's spec;
issued calls are tagged with the device index. -/
def entryRun (resolve : Nat → Option Device) (e : Nat × Sets) :
    List (Nat × WriteCall) × Option String :=
  match resolve e.1 with
  | none => ([], some "Failed to get GPU")
  | some d =>
    let r := Sets.apply e.2 d
    (r.1.map (fun c => (e.1, c)), r.2)

/-- The config-driven batch run (src/src/main.rs:234-237): entries are
processed in iteration order and the first aborting entry terminates
the run. -/
def batchRun (resolve : Nat → Option Device) :
    List (Nat × Sets) → List (Nat × WriteCall) × Option String
  | [] => ([], none)
  | e :: rest =>
    let r := entryRun resolve e
    match r.2 with
    | some m => (r.1, some m)
    | none =>
      let rr := batchRun resolve rest
      (r.1 ++ rr.1, rr.2)

/-- A line of the report path: stdout or stderr. -/
inductive ReportLine where
  | out (s : String)
  | err (s : String)
  deriving DecidableEq

/-- Core clock offset report line (src/src/main.rs:180-184). -/
def coreOffsetLine : Except NvmlError Int → ReportLine
  | Except.ok v => ReportLine.out ("GPU core clock offset: " ++ toString v ++ " MHz")
  | Except.error e => ReportLine.err ("Failed to get GPU core clock offset: " ++ reprNvmlError e)

/-- Memory clock offset report line (src/src/main.rs:186-190). -/
def memOffsetLine : Except NvmlError Int → ReportLine
  | Except.ok v => ReportLine.out ("GPU memory clock offset: " ++ toString v ++ " MHz")
  | Except.error e => ReportLine.err ("Failed to get GPU memory clock offset: " ++ reprNvmlError e)

/-- Power limit report line (src/src/main.rs:192-196). -/
def powerLimitLine : Except NvmlError Nat → ReportLine
  | Except.ok p => ReportLine.out ("GPU power limit: " ++ toString (p / 1000) ++ " W")
  | Except.error e => ReportLine.err ("Failed to get GPU power limit: " ++ reprNvmlError e)

/-- Power limit range report line (src/src/main.rs:198-206). -/
def powerRangeLine : Except NvmlError (Nat × Nat) → ReportLine
  | Except.ok (mn, mx) =>
      ReportLine.out ("GPU power limit range: " ++ toString (mn / 1000) ++ "-" ++
        toString (mx / 1000) ++ " W")
  | Except.error e => ReportLine.err ("Failed to get GPU power limit constraints: " ++ reprNvmlError e)

/-- Acoustic target temperature report line (src/src/main.rs:209-212). -/
def acousticLine : Option Nat → ReportLine
  | some t => ReportLine.out ("Target temperature (acoustic): " ++ toString t ++ "°C")
  | none => ReportLine.err "Failed to get target temperature (not supported or not set)"

/-- Acoustic temperature range report line (src/src/main.rs:214-220). -/
def acousticRangeLine : Option Nat × Option Nat → ReportLine
  | (some mn, some mx) =>
      ReportLine.out ("Target temperature range: " ++ toString mn ++ "°C - " ++
        toString mx ++ "°C")
  | _ => ReportLine.err "Failed to get target temperature range (not supported)"

/-- The Get arm of main (src/src/main.rs:180-220): six independent
queries, each contributing exactly one line regardless of the others'
outcomes. -/
def report (d : Device) : List ReportLine :=
  [coreOffsetLine d.gpcOffsetRead,
   memOffsetLine d.memOffsetRead,
   powerLimitLine d.enforcedPowerLimit,
   powerRangeLine d.powerConstraints,
   acousticLine (get_acoustic_temperature d),
   acousticRangeLine (get_acoustic_temperature_range d)]

/-- High-level actions of the main dispatch, used to state which
process-wide effects each command arm can perform. -/
inductive Action where
  | escalate
  | sudoChain
  | nvmlInit
  | deviceByIndex (i : Nat)
  | reportQueries
  | readConfig
  | batchApply
  | completionGen
  deriving DecidableEq

/-- The parsed command (the Option of `Commands`, src/src/main.rs:23-46;
`config` stands for no subcommand, the config-driven arm). -/
inductive CliCommand where
  | set (index : Nat) (sets : Sets)
  | get (index : Nat)
  | completion
  | config

/-- The process environment of one invocation: whether the management
library initializes, how indices resolve to devices, whether the config
file is readable, and what it parses to. -/
structure Env where
  nvmlInitOk : Bool
  resolve : Nat → Option Device
  configReadable : Bool
  configParse : Option (List (Nat × Sets))

/-- The main dispatch (src/src/main.rs:157-244), coarsened to the
trace of process-wide actions each arm performs, with the abort
message when the arm terminates the process. -/
def runCommand (sys : EscSys) (env : Env) : CliCommand → List Action × Option String
  | CliCommand.set i s =>
    match (escalate_permissions sys).2 with
    | Except.error m => ([Action.escalate], some ("Failed to escalate permissions: " ++ m))
    | Except.ok _ =>
      match sudoChainRes sys with
      | some m => ([Action.escalate, Action.sudoChain],
          some ("Failed to escalate privileges: " ++ m))
      | none =>
        if env.nvmlInitOk then
          match env.resolve i with
          | none => ([Action.escalate, Action.sudoChain, Action.nvmlInit,
              Action.deviceByIndex i], some "Failed to get GPU")
          | some d =>
            ([Action.escalate, Action.sudoChain, Action.nvmlInit,
              Action.deviceByIndex i], (Sets.apply s d).2)
        else ([Action.escalate, Action.sudoChain, Action.nvmlInit],
          some "Failed to initialize NVML")
  | CliCommand.get i =>
    if env.nvmlInitOk then
      match env.resolve i with
      | none => ([Action.nvmlInit, Action.deviceByIndex i], some "Failed to get GPU")
      | some _ => ([Action.nvmlInit, Action.deviceByIndex i, Action.reportQueries], none)
    else ([Action.nvmlInit], some "Failed to initialize NVML")
  | CliCommand.completion => ([Action.completionGen], none)
  | CliCommand.config =>
    if env.configReadable then
      match (escalate_permissions sys).2 with
      | Except.error m => ([Action.readConfig, Action.escalate],
          some ("Failed to escalate permissions: " ++ m))
      | Except.ok _ =>
        match env.configParse with
        | none => ([Action.readConfig, Action.escalate], some "Invalid configuration file")
        | some entries =>
          if env.nvmlInitOk then
            ([Action.readConfig, Action.escalate, Action.nvmlInit, Action.batchApply],
              (batchRun env.resolve entries).2)
          else ([Action.readConfig, Action.escalate, Action.nvmlInit],
            some "Failed to initialize NVML")
    else ([Action.readConfig],
      some "Configuration file not found and no valid arguments were provided. Run nvidia_oc --help for more information.")

/-- Modelled from the clap derive declarations on `Sets`
(src/src/main.rs:50-72): the argument group is required (at least one
settings argument must be present) and each locked-clock bound
requires its partner; enforcement itself lives in the external
argument parser. -/
def cliAccepts (s : Sets) : Bool :=
  (s.freq_offset.isSome || s.mem_offset.isSome || s.power_limit.isSome ||
   s.min_clock.isSome || s.max_clock.isSome || s.min_mem_clock.isSome ||
   s.max_mem_clock.isSome || s.target_temp.isSome) &&
  (!s.min_clock.isSome || s.max_clock.isSome) &&
  (!s.max_clock.isSome || s.min_clock.isSome) &&
  (!s.min_mem_clock.isSome || s.max_mem_clock.isSome) &&
  (!s.max_mem_clock.isSome || s.min_mem_clock.isSome)

/-- A spec populating exactly one field; a locked clock range counts
as a single field. -/
def exactlyOne (s : Sets) (f : SpecField) : Prop :=
  populated s f = true ∧ ∀ g : SpecField, g ≠ f → populated s g = false

/-- The all-absent spec (every optional field missing). -/
def emptySets : Sets := ⟨none, none, none, none, none, none, none, none⟩

/-- A spec requesting only a power limit. -/
def powerOnly (limit : Nat) : Sets :=
  ⟨none, none, some limit, none, none, none, none, none⟩

/-- A spec requesting only a core frequency offset. -/
def sSet1 : Sets := ⟨some 100, none, none, none, none, none, none, none⟩

/-- A spec requesting only a memory frequency offset. -/
def sSet3 : Sets := ⟨none, some 500, none, none, none, none, none, none⟩

/-- A device accepting every write, with all queries succeeding. -/
def devAccept : Device :=
  ⟨Except.ok 50, Except.ok 200, Except.ok 250000, Except.ok (100000, 300000),
   fun _ => none, true, true, "", fun _ => 0, fun _ => (0, 83)⟩

/-- A device rejecting power-limit writes with InvalidArg and reporting
the power-limit range [100000, 300000] milliwatts. -/
def devReject : Device :=
  ⟨Except.ok 50, Except.ok 200, Except.ok 250000, Except.ok (100000, 300000),
   fun c => match c with
     | WriteCall.setPowerManagementLimit _ => some NvmlError.invalidArg
     | _ => none,
   true, true, "", fun _ => 0, fun _ => (0, 83)⟩

/-- A device rejecting power-limit writes with NotSupported while the
range query succeeds with [100000, 300000] milliwatts. -/
def devC4bad : Device :=
  ⟨Except.ok 50, Except.ok 200, Except.ok 250000, Except.ok (100000, 300000),
   fun c => match c with
     | WriteCall.setPowerManagementLimit _ => some NvmlError.notSupported
     | _ => none,
   true, true, "", fun _ => 0, fun _ => (0, 83)⟩

/-- A device on which neither candidate vendor library loads. -/
def devNoLib : Device :=
  ⟨Except.ok 50, Except.ok 200, Except.ok 250000, Except.ok (100000, 300000),
   fun _ => none, false, false, "cannot open shared object file",
   fun _ => 0, fun _ => (0, 83)⟩

/-- A device whose power-limit query fails while the offset queries
succeed. -/
def devReport : Device :=
  ⟨Except.ok 150, Except.ok 800, Except.error NvmlError.notSupported,
   Except.ok (100000, 300000), fun _ => none, true, true, "",
   fun _ => 0, fun _ => (0, 83)⟩

/-- Index resolution for the three-device batch scenario. -/
def resolveW : Nat → Option Device := fun i =>
  if i = 1 then some devAccept
  else if i = 2 then some devReject
  else if i = 3 then some devAccept
  else none

/-- The abort message of the failing batch entry of the scenario. -/
def wMsg : String := powerLimitOutOfRangeMsg 400000 (Except.ok (100000, 300000))

/-- A host with no root privilege and none of the three escalation
tools installed. -/
def esysNone : EscSys := ⟨false, false, false, false, fun _ => none⟩

/-- Soundness of one applier step with respect to its intended call
list: the issued trace is an initial segment of the intended calls; on
success the trace is exactly the intended calls and every issued call
was accepted; on abort the trace ends in the one rejected call and
every earlier call was accepted. -/
abbrev StepSpec (d : Device) (st : List WriteCall × Option String)
    (exp : List WriteCall) : Prop :=
  (∃ t, st.1 ++ t = exp) ∧
  (st.2 = none → st.1 = exp ∧ ∀ c ∈ st.1, callOk d c) ∧
  (∀ m, st.2 = some m →
    ∃ tr c, st.1 = tr ++ [c] ∧ (∀ x ∈ tr, callOk d x) ∧ ¬ callOk d c)

theorem stepSpec_nil (d : Device) : StepSpec d ([], none) [] :=
  ⟨⟨[], rfl⟩, fun _ => ⟨rfl, by simp⟩, fun m hm => by simp at hm⟩

theorem seqStep_spec {d : Device} {a b : List WriteCall × Option String}
    {ea eb : List WriteCall}
    (ha : StepSpec d a ea) (hb : StepSpec d b eb) :
    StepSpec d (seqStep a b) (ea ++ eb) := by
  obtain ⟨⟨ta, hta⟩, hoka, hfaila⟩ := ha
  obtain ⟨⟨tb, htb⟩, hokb, hfailb⟩ := hb
  cases h2 : a.2 with
  | some m =>
    have hs : seqStep a b = (a.1, some m) := by
      unfold seqStep
      rw [h2]
    rw [hs]
    refine ⟨⟨ta ++ eb, ?_⟩, ?_, ?_⟩
    · show a.1 ++ (ta ++ eb) = ea ++ eb
      rw [← List.append_assoc, hta]
    · intro h
      exact absurd h (by simp)
    · intro m' _
      exact hfaila m h2
  | none =>
    obtain ⟨h1, hallok⟩ := hoka h2
    have hs : seqStep a b = (a.1 ++ b.1, b.2) := by
      unfold seqStep
      rw [h2]
    rw [hs]
    refine ⟨⟨tb, ?_⟩, ?_, ?_⟩
    · show (a.1 ++ b.1) ++ tb = ea ++ eb
      rw [List.append_assoc, htb, h1]
    · intro hb2
      obtain ⟨hbeq, hbok⟩ := hokb hb2
      refine ⟨?_, ?_⟩
      · show a.1 ++ b.1 = ea ++ eb
        rw [hbeq, h1]
      · intro c hc
        rcases List.mem_append.mp hc with h | h
        · exact hallok c h
        · exact hbok c h
    · intro m hm
      obtain ⟨tr, c, hdec, htrok, hbad⟩ := hfailb m hm
      refine ⟨a.1 ++ tr, c, ?_, ?_, hbad⟩
      · show a.1 ++ b.1 = (a.1 ++ tr) ++ [c]
        rw [hdec, List.append_assoc]
      · intro x hx
        rcases List.mem_append.mp hx with h | h
        · exact hallok x h
        · exact htrok x h

theorem stepFreq_spec (s : Sets) (d : Device) :
    StepSpec d (stepFreq s d) (freqCalls s) := by
  cases hf : s.freq_offset with
  | none =>
    simp [stepFreq, freqCalls, hf]
    exact stepSpec_nil d
  | some v =>
    cases hw : d.writeRes (WriteCall.setGpcClockVfOffset v) with
    | none =>
      refine ⟨⟨[], by simp [stepFreq, freqCalls, hf, hw]⟩, ?_, ?_⟩
      · intro _
        refine ⟨by simp [stepFreq, freqCalls, hf, hw], ?_⟩
        intro c hc
        simp [stepFreq, hf, hw] at hc
        subst hc
        simp [callOk, hw]
      · intro m hm
        simp [stepFreq, hf, hw] at hm
    | some e =>
      refine ⟨⟨[], by simp [stepFreq, freqCalls, hf, hw]⟩, ?_, ?_⟩
      · intro h
        simp [stepFreq, hf, hw] at h
      · intro m _
        refine ⟨[], WriteCall.setGpcClockVfOffset v, by simp [stepFreq, hf], by simp, ?_⟩
        simp [callOk, hw]

theorem stepMem_spec (s : Sets) (d : Device) :
    StepSpec d (stepMem s d) (memCalls s) := by
  cases hf : s.mem_offset with
  | none =>
    simp [stepMem, memCalls, hf]
    exact stepSpec_nil d
  | some v =>
    cases hw : d.writeRes (WriteCall.setMemClockVfOffset v) with
    | none =>
      refine ⟨⟨[], by simp [stepMem, memCalls, hf, hw]⟩, ?_, ?_⟩
      · intro _
        refine ⟨by simp [stepMem, memCalls, hf, hw], ?_⟩
        intro c hc
        simp [stepMem, hf, hw] at hc
        subst hc
        simp [callOk, hw]
      · intro m hm
        simp [stepMem, hf, hw] at hm
    | some e =>
      refine ⟨⟨[], by simp [stepMem, memCalls, hf, hw]⟩, ?_, ?_⟩
      · intro h
        simp [stepMem, hf, hw] at h
      · intro m _
        refine ⟨[], WriteCall.setMemClockVfOffset v, by simp [stepMem, hf], by simp, ?_⟩
        simp [callOk, hw]

theorem stepPower_spec (s : Sets) (d : Device) :
    StepSpec d (stepPower s d) (powerCalls s) := by
  cases hf : s.power_limit with
  | none =>
    simp [stepPower, powerCalls, hf]
    exact stepSpec_nil d
  | some limit =>
    cases hw : d.writeRes (WriteCall.setPowerManagementLimit limit) with
    | none =>
      refine ⟨⟨[], by simp [stepPower, powerCalls, hf, hw]⟩, ?_, ?_⟩
      · intro _
        refine ⟨by simp [stepPower, powerCalls, hf, hw], ?_⟩
        intro c hc
        simp [stepPower, hf, hw] at hc
        subst hc
        simp [callOk, hw]
      · intro m hm
        simp [stepPower, hf, hw] at hm
    | some e =>
      refine ⟨⟨[], by simp [stepPower, powerCalls, hf, hw]⟩, ?_, ?_⟩
      · intro h
        simp [stepPower, hf, hw] at h
      · intro m _
        refine ⟨[], WriteCall.setPowerManagementLimit limit, by simp [stepPower, hf], by simp, ?_⟩
        simp [callOk, hw]

theorem stepCoreClocks_spec (s : Sets) (d : Device) :
    StepSpec d (stepCoreClocks s d) (coreClockCalls s) := by
  cases hmn : s.min_clock with
  | none =>
    simp [stepCoreClocks, coreClockCalls, hmn]
    exact stepSpec_nil d
  | some mn =>
    cases hmx : s.max_clock with
    | none =>
      simp [stepCoreClocks, coreClockCalls, hmn, hmx]
      exact stepSpec_nil d
    | some mx =>
      cases hw : d.writeRes (WriteCall.setGpuLockedClocks mn mx) with
      | none =>
        refine ⟨⟨[], by simp [stepCoreClocks, coreClockCalls, hmn, hmx, hw]⟩, ?_, ?_⟩
        · intro _
          refine ⟨by simp [stepCoreClocks, coreClockCalls, hmn, hmx, hw], ?_⟩
          intro c hc
          simp [stepCoreClocks, hmn, hmx, hw] at hc
          subst hc
          simp [callOk, hw]
        · intro m hm
          simp [stepCoreClocks, hmn, hmx, hw] at hm
      | some e =>
        refine ⟨⟨[], by simp [stepCoreClocks, coreClockCalls, hmn, hmx, hw]⟩, ?_, ?_⟩
        · intro h
          simp [stepCoreClocks, hmn, hmx, hw] at h
        · intro m _
          refine ⟨[], WriteCall.setGpuLockedClocks mn mx,
            by simp [stepCoreClocks, hmn, hmx], by simp, ?_⟩
          simp [callOk, hw]

theorem stepMemClocks_spec (s : Sets) (d : Device) :
    StepSpec d (stepMemClocks s d) (memClockCalls s) := by
  cases hmn : s.min_mem_clock with
  | none =>
    simp [stepMemClocks, memClockCalls, hmn]
    exact stepSpec_nil d
  | some mn =>
    cases hmx : s.max_mem_clock with
    | none =>
      simp [stepMemClocks, memClockCalls, hmn, hmx]
      exact stepSpec_nil d
    | some mx =>
      cases hw : d.writeRes (WriteCall.setMemLockedClocks mn mx) with
      | none =>
        refine ⟨⟨[], by simp [stepMemClocks, memClockCalls, hmn, hmx, hw]⟩, ?_, ?_⟩
        · intro _
          refine ⟨by simp [stepMemClocks, memClockCalls, hmn, hmx, hw], ?_⟩
          intro c hc
          simp [stepMemClocks, hmn, hmx, hw] at hc
          subst hc
          simp [callOk, hw]
        · intro m hm
          simp [stepMemClocks, hmn, hmx, hw] at hm
      | some e =>
        refine ⟨⟨[], by simp [stepMemClocks, memClockCalls, hmn, hmx, hw]⟩, ?_, ?_⟩
        · intro h
          simp [stepMemClocks, hmn, hmx, hw] at h
        · intro m _
          refine ⟨[], WriteCall.setMemLockedClocks mn mx,
            by simp [stepMemClocks, hmn, hmx], by simp, ?_⟩
          simp [callOk, hw]

theorem stepTemp_spec (s : Sets) (d : Device) :
    StepSpec d (stepTemp s d) (tempCalls s) := by
  cases hf : s.target_temp with
  | none =>
    simp [stepTemp, tempCalls, hf]
    exact stepSpec_nil d
  | some t =>
    cases hw : (set_acoustic_temperature d t).2 with
    | none =>
      refine ⟨⟨[], by simp [stepTemp, tempCalls, hf, hw]⟩, ?_, ?_⟩
      · intro _
        refine ⟨by simp [stepTemp, tempCalls, hf, hw], ?_⟩
        intro c hc
        simp [stepTemp, hf, hw] at hc
        subst hc
        simpa [callOk] using hw
      · intro m hm
        simp [stepTemp, hf, hw] at hm
    | some e =>
      refine ⟨⟨[], by simp [stepTemp, tempCalls, hf, hw]⟩, ?_, ?_⟩
      · intro h
        simp [stepTemp, hf, hw] at h
      · intro m _
        refine ⟨[], WriteCall.setTargetTemp t, by simp [stepTemp, hf], by simp, ?_⟩
        simp [callOk, hw]

/-- `Sets::apply` is sound for the fixed-order call list of its spec. -/
theorem apply_spec (s : Sets) (d : Device) :
    StepSpec d (Sets.apply s d) (expectedCalls s) :=
  seqStep_spec (stepFreq_spec s d)
    (seqStep_spec (stepMem_spec s d)
      (seqStep_spec (stepPower_spec s d)
        (seqStep_spec (stepCoreClocks_spec s d)
          (seqStep_spec (stepMemClocks_spec s d) (stepTemp_spec s d)))))

/-- Every call in the fixed-order call list belongs to a populated
field of the spec. -/
theorem mem_expectedCalls {s : Sets} {c : WriteCall}
    (h : c ∈ expectedCalls s) : populated s (callField c) = true := by
  unfold expectedCalls at h
  simp only [List.mem_append] at h
  rcases h with h | h | h | h | h | h
  · cases hf : s.freq_offset with
    | none => simp [freqCalls, hf] at h
    | some v =>
      simp [freqCalls, hf] at h
      subst h
      simp [callField, populated, hf]
  · cases hf : s.mem_offset with
    | none => simp [memCalls, hf] at h
    | some v =>
      simp [memCalls, hf] at h
      subst h
      simp [callField, populated, hf]
  · cases hf : s.power_limit with
    | none => simp [powerCalls, hf] at h
    | some v =>
      simp [powerCalls, hf] at h
      subst h
      simp [callField, populated, hf]
  · cases hmn : s.min_clock with
    | none => simp [coreClockCalls, hmn] at h
    | some mn =>
      cases hmx : s.max_clock with
      | none => simp [coreClockCalls, hmn, hmx] at h
      | some mx =>
        simp [coreClockCalls, hmn, hmx] at h
        subst h
        simp [callField, populated, hmn, hmx]
  · cases hmn : s.min_mem_clock with
    | none => simp [memClockCalls, hmn] at h
    | some mn =>
      cases hmx : s.max_mem_clock with
      | none => simp [memClockCalls, hmn, hmx] at h
      | some mx =>
        simp [memClockCalls, hmn, hmx] at h
        subst h
        simp [callField, populated, hmn, hmx]
  · cases hf : s.target_temp with
    | none => simp [tempCalls, hf] at h
    | some t =>
      simp [tempCalls, hf] at h
      subst h
      simp [callField, populated, hf]

theorem freqCalls_nil {s : Sets} (h : populated s SpecField.freq = false) :
    freqCalls s = [] := by
  cases hf : s.freq_offset with
  | none => simp [freqCalls, hf]
  | some v => simp [populated, hf] at h

theorem memCalls_nil {s : Sets} (h : populated s SpecField.mem = false) :
    memCalls s = [] := by
  cases hf : s.mem_offset with
  | none => simp [memCalls, hf]
  | some v => simp [populated, hf] at h

theorem powerCalls_nil {s : Sets} (h : populated s SpecField.power = false) :
    powerCalls s = [] := by
  cases hf : s.power_limit with
  | none => simp [powerCalls, hf]
  | some v => simp [populated, hf] at h

theorem coreClockCalls_nil {s : Sets}
    (h : populated s SpecField.coreRange = false) : coreClockCalls s = [] := by
  cases hmn : s.min_clock with
  | none => simp [coreClockCalls, hmn]
  | some mn =>
    cases hmx : s.max_clock with
    | none => simp [coreClockCalls, hmn, hmx]
    | some mx => simp [populated, hmn, hmx] at h

theorem memClockCalls_nil {s : Sets}
    (h : populated s SpecField.memRange = false) : memClockCalls s = [] := by
  cases hmn : s.min_mem_clock with
  | none => simp [memClockCalls, hmn]
  | some mn =>
    cases hmx : s.max_mem_clock with
    | none => simp [memClockCalls, hmn, hmx]
    | some mx => simp [populated, hmn, hmx] at h

theorem tempCalls_nil {s : Sets} (h : populated s SpecField.temp = false) :
    tempCalls s = [] := by
  cases hf : s.target_temp with
  | none => simp [tempCalls, hf]
  | some t => simp [populated, hf] at h

/-- With exactly one populated field, the fixed-order call list is a
single call targeting that field. -/
theorem exactlyOne_expected {s : Sets} {f : SpecField} (h : exactlyOne s f) :
    ∃ c, expectedCalls s = [c] ∧ callField c = f := by
  obtain ⟨hf, ho⟩ := h
  cases f with
  | freq =>
    cases hv : s.freq_offset with
    | none => simp [populated, hv] at hf
    | some v =>
      refine ⟨WriteCall.setGpcClockVfOffset v, ?_, rfl⟩
      unfold expectedCalls
      rw [memCalls_nil (ho _ (by decide)), powerCalls_nil (ho _ (by decide)),
        coreClockCalls_nil (ho _ (by decide)), memClockCalls_nil (ho _ (by decide)),
        tempCalls_nil (ho _ (by decide))]
      simp [freqCalls, hv]
  | mem =>
    cases hv : s.mem_offset with
    | none => simp [populated, hv] at hf
    | some v =>
      refine ⟨WriteCall.setMemClockVfOffset v, ?_, rfl⟩
      unfold expectedCalls
      rw [freqCalls_nil (ho _ (by decide)), powerCalls_nil (ho _ (by decide)),
        coreClockCalls_nil (ho _ (by decide)), memClockCalls_nil (ho _ (by decide)),
        tempCalls_nil (ho _ (by decide))]
      simp [memCalls, hv]
  | power =>
    cases hv : s.power_limit with
    | none => simp [populated, hv] at hf
    | some v =>
      refine ⟨WriteCall.setPowerManagementLimit v, ?_, rfl⟩
      unfold expectedCalls
      rw [freqCalls_nil (ho _ (by decide)), memCalls_nil (ho _ (by decide)),
        coreClockCalls_nil (ho _ (by decide)), memClockCalls_nil (ho _ (by decide)),
        tempCalls_nil (ho _ (by decide))]
      simp [powerCalls, hv]
  | coreRange =>
    cases hmn : s.min_clock with
    | none => simp [populated, hmn] at hf
    | some mn =>
      cases hmx : s.max_clock with
      | none => simp [populated, hmn, hmx] at hf
      | some mx =>
        refine ⟨WriteCall.setGpuLockedClocks mn mx, ?_, rfl⟩
        unfold expectedCalls
        rw [freqCalls_nil (ho _ (by decide)), memCalls_nil (ho _ (by decide)),
          powerCalls_nil (ho _ (by decide)), memClockCalls_nil (ho _ (by decide)),
          tempCalls_nil (ho _ (by decide))]
        simp [coreClockCalls, hmn, hmx]
  | memRange =>
    cases hmn : s.min_mem_clock with
    | none => simp [populated, hmn] at hf
    | some mn =>
      cases hmx : s.max_mem_clock with
      | none => simp [populated, hmn, hmx] at hf
      | some mx =>
        refine ⟨WriteCall.setMemLockedClocks mn mx, ?_, rfl⟩
        unfold expectedCalls
        rw [freqCalls_nil (ho _ (by decide)), memCalls_nil (ho _ (by decide)),
          powerCalls_nil (ho _ (by decide)), coreClockCalls_nil (ho _ (by decide)),
          tempCalls_nil (ho _ (by decide))]
        simp [memClockCalls, hmn, hmx]
  | temp =>
    cases hv : s.target_temp with
    | none => simp [populated, hv] at hf
    | some t =>
      refine ⟨WriteCall.setTargetTemp t, ?_, rfl⟩
      unfold expectedCalls
      rw [freqCalls_nil (ho _ (by decide)), memCalls_nil (ho _ (by decide)),
        powerCalls_nil (ho _ (by decide)), coreClockCalls_nil (ho _ (by decide)),
        memClockCalls_nil (ho _ (by decide))]
      simp [tempCalls, hv]

theorem matchesAt_append (p r : List Char) : matchesAt p (p ++ r) = true := by
  induction p with
  | nil => rfl
  | cons a as ih => simp [matchesAt, ih]

theorem hasSub_self_append (p r : List Char) : hasSub p (p ++ r) = true := by
  cases p with
  | nil =>
    cases r with
    | nil => rfl
    | cons c cs => simp [hasSub, matchesAt]
  | cons a as =>
    have h := matchesAt_append (a :: as) r
    simp only [List.cons_append] at h ⊢
    simp [hasSub, h]

theorem hasSub_cons (p : List Char) (c : Char) (l : List Char)
    (h : hasSub p l = true) : hasSub p (c :: l) = true := by
  simp [hasSub, h]

theorem hasSub_append (p x l : List Char) (h : hasSub p l = true) :
    hasSub p (x ++ l) = true := by
  induction x with
  | nil => simpa using h
  | cons c cs ih => simpa [List.cons_append] using hasSub_cons p c _ ih

theorem str_data_append (s t : String) : (s ++ t).data = s.data ++ t.data := by
  cases s
  cases t
  rfl

/-- Claim C1: for every spec and device, `Sets::apply` issues the
underlying write calls for exactly the present fields in the fixed
order core offset, memory offset, power limit, locked core clocks,
locked memory clocks, target temperature: the issued trace is always
an initial segment of that fixed-order list, on success it is exactly
that list, on abort the trace ends at the first rejected call with
every remaining step skipped, and a call is only ever issued for a
populated field (an absent field produces no call). -/
theorem spec_C1 (s : Sets) (d : Device) :
    (∃ t, (Sets.apply s d).1 ++ t = expectedCalls s) ∧
    ((Sets.apply s d).2 = none → (Sets.apply s d).1 = expectedCalls s) ∧
    (∀ m, (Sets.apply s d).2 = some m →
      ∃ tr c, (Sets.apply s d).1 = tr ++ [c] ∧
        (∀ x ∈ tr, callOk d x) ∧ ¬ callOk d c) ∧
    (∀ c ∈ (Sets.apply s d).1, populated s (callField c) = true) := by
  obtain ⟨hp, hok, hfail⟩ := apply_spec s d
  refine ⟨hp, fun h2 => (hok h2).1, hfail, ?_⟩
  intro c hc
  obtain ⟨t, ht⟩ := hp
  have hmem : c ∈ (Sets.apply s d).1 ++ t := List.mem_append_left _ hc
  rw [ht] at hmem
  exact mem_expectedCalls hmem

theorem spec_C1_witness :
    (∃ t, (Sets.apply sSet1 devAccept).1 ++ t = expectedCalls sSet1) ∧
    ((Sets.apply sSet1 devAccept).2 = none →
      (Sets.apply sSet1 devAccept).1 = expectedCalls sSet1) ∧
    (∀ m, (Sets.apply sSet1 devAccept).2 = some m →
      ∃ tr c, (Sets.apply sSet1 devAccept).1 = tr ++ [c] ∧
        (∀ x ∈ tr, callOk devAccept x) ∧ ¬ callOk devAccept c) ∧
    (∀ c ∈ (Sets.apply sSet1 devAccept).1,
      populated sSet1 (callField c) = true) :=
  spec_C1 sSet1 devAccept

/-- Claim C2 counterexample: on the config-driven path an all-absent
spec is not rejected — applying it yields no error and no device call,
although the claim requires the empty spec to be rejected before any
device call on that path as well. -/
theorem spec_C2_counterexample :
    Sets.apply emptySets devAccept = ([], none) := rfl

/-- Claim C2 (amended): an all-absent spec is rejected before any
device call on the command-line path (by the declared argument-group
requirement); on the config-driven path it is not rejected: applying
it issues no device call and no error (a silent no-op). -/
theorem spec_C2 :
    cliAccepts emptySets = false ∧
    ∀ d : Device, Sets.apply emptySets d = ([], none) := by
  refine ⟨rfl, ?_⟩
  intro d
  rfl

/-- Claim C3: the batch run applies config entries one at a time in
iteration order; when every entry succeeds all entries are applied in
order, and the first application failure aborts the entire run — the
entries before the failure keep their full call traces (no rollback),
the failing entry contributes its partial trace, and the entries after
the failure are never attempted. -/
theorem spec_C3 :
    (∀ (resolve : Nat → Option Device) (entries : List (Nat × Sets)),
      (∀ x ∈ entries, (entryRun resolve x).2 = none) →
      batchRun resolve entries =
        ((entries.map (fun x => (entryRun resolve x).1)).flatten, none)) ∧
    (∀ (resolve : Nat → Option Device) (pre : List (Nat × Sets))
      (e : Nat × Sets) (rest : List (Nat × Sets)) (m : String),
      (∀ x ∈ pre, (entryRun resolve x).2 = none) →
      (entryRun resolve e).2 = some m →
      batchRun resolve (pre ++ e :: rest) =
        ((pre.map (fun x => (entryRun resolve x).1)).flatten ++
          (entryRun resolve e).1, some m)) := by
  constructor
  · intro resolve entries h
    induction entries with
    | nil => simp [batchRun]
    | cons x xs ih =>
      have hx := h x (by simp)
      have hxs := ih (fun y hy => h y (by simp [hy]))
      simp [batchRun, hx, hxs]
  · intro resolve pre e rest m hpre he
    induction pre with
    | nil => simp [batchRun, he]
    | cons x xs ih =>
      have hx := hpre x (by simp)
      have hxs := ih (fun y hy => hpre y (by simp [hy]))
      simp [batchRun, hx, hxs, List.append_assoc]

theorem spec_C3_witness :
    batchRun resolveW ([(1, sSet1)] ++ (2, powerOnly 400000) :: [(3, sSet3)]) =
      (([(1, sSet1)].map (fun x => (entryRun resolveW x).1)).flatten ++
        (entryRun resolveW (2, powerOnly 400000)).1, some wMsg) :=
  spec_C3.2 resolveW [(1, sSet1)] (2, powerOnly 400000) [(3, sSet3)] wMsg
    (by
      intro x hx
      rw [List.mem_singleton] at hx
      subst hx
      rfl)
    rfl

/-- Claim C4 counterexample: a power-limit request rejected by the
device with NotSupported (not InvalidArg) produces the plain message
with no range information, even though the constraints query succeeds
with [100000, 300000] milliwatts — the message contains neither 300000
nor 300. -/
theorem spec_C4_counterexample :
    (Sets.apply (powerOnly 400000) devC4bad).2 =
      some ("Failed to set GPU power limit: " ++
        reprNvmlError NvmlError.notSupported) ∧
    devC4bad.powerConstraints = Except.ok (100000, 300000) ∧
    strHasSub ("Failed to set GPU power limit: " ++
      reprNvmlError NvmlError.notSupported) (toString (300000 : Nat)) = false ∧
    strHasSub ("Failed to set GPU power limit: " ++
      reprNvmlError NvmlError.notSupported) (toString (300 : Nat)) = false :=
  ⟨rfl, rfl, by decide, by decide⟩

/-- Claim C4 (amended): for every power-limit request rejected by the
device with the invalid-argument error, when the range query succeeds
the resulting error message is the range-enriched message, which
contains the device-reported bounds in milliwatts and their derived
watt values. -/
theorem spec_C4 (d : Device) (limit mn mx : Nat)
    (hrej : d.writeRes (WriteCall.setPowerManagementLimit limit) =
      some NvmlError.invalidArg)
    (hcon : d.powerConstraints = Except.ok (mn, mx)) :
    (Sets.apply (powerOnly limit) d).2 =
      some (powerLimitOutOfRangeMsg limit (Except.ok (mn, mx))) ∧
    strHasSub (powerLimitOutOfRangeMsg limit (Except.ok (mn, mx)))
      (toString mn) = true ∧
    strHasSub (powerLimitOutOfRangeMsg limit (Except.ok (mn, mx)))
      (toString mx) = true ∧
    strHasSub (powerLimitOutOfRangeMsg limit (Except.ok (mn, mx)))
      (toString (mn / 1000)) = true ∧
    strHasSub (powerLimitOutOfRangeMsg limit (Except.ok (mn, mx)))
      (toString (mx / 1000)) = true := by
  refine ⟨?_, ?_, ?_, ?_, ?_⟩
  · simp [Sets.apply, seqStep, stepFreq, stepMem, stepPower, stepCoreClocks,
      stepMemClocks, stepTemp, powerOnly, hrej, powerFailMsg, hcon]
  all_goals
    simp only [powerLimitOutOfRangeMsg, strHasSub, str_data_append,
      List.append_assoc]
    repeat (first | exact hasSub_self_append _ _ | apply hasSub_append)

theorem spec_C4_witness :
    (Sets.apply (powerOnly 400000) devReject).2 =
      some (powerLimitOutOfRangeMsg 400000 (Except.ok (100000, 300000))) ∧
    strHasSub (powerLimitOutOfRangeMsg 400000 (Except.ok (100000, 300000)))
      "300000" = true ∧
    strHasSub (powerLimitOutOfRangeMsg 400000 (Except.ok (100000, 300000)))
      "300" = true :=
  ⟨(spec_C4 devReject 400000 100000 300000 rfl rfl).1, by decide, by decide⟩

/-- Claim C5: when neither candidate vendor library loads, every
threshold query returns an unavailable result without an error — the
current-threshold query returns none and the range query returns
(none, none) — while the mutating call issues no raw call and returns
an explicit failure string mentioning the library load failure. -/
theorem spec_C5 (d : Device) (t : Nat)
    (h1 : d.lib1 = false) (h2 : d.lib2 = false) :
    get_acoustic_temperature d = none ∧
    get_acoustic_temperature_range d = (none, none) ∧
    set_acoustic_temperature d t =
      ([], some ("Failed to load NVML library: " ++ d.loadErr)) ∧
    strHasSub ("Failed to load NVML library: " ++ d.loadErr)
      "Failed to load NVML library" = true := by
  refine ⟨?_, ?_, ?_, ?_⟩
  · simp [get_acoustic_temperature, h1, h2]
  · simp [get_acoustic_temperature_range, h1, h2]
  · simp [set_acoustic_temperature, h1, h2]
  · have hd : ("Failed to load NVML library: ").data =
        ("Failed to load NVML library").data ++ [':', ' '] := by decide
    simp only [strHasSub, str_data_append, hd, List.append_assoc]
    exact hasSub_self_append _ _

theorem spec_C5_witness :
    get_acoustic_temperature devNoLib = none ∧
    get_acoustic_temperature_range devNoLib = (none, none) ∧
    set_acoustic_temperature devNoLib 85 =
      ([], some ("Failed to load NVML library: " ++ devNoLib.loadErr)) ∧
    strHasSub ("Failed to load NVML library: " ++ devNoLib.loadErr)
      "Failed to load NVML library" = true :=
  spec_C5 devNoLib 85 rfl rfl

/-- Claim C6: the privilege gate returns immediately with success when
the process is already elevated; otherwise it attempts the first
present tool in the strict order sudo, doas, pkexec — a present sudo is
attempted alone regardless of the fallbacks — and re-executes under it
on success; with none of the three present it fails with a permission
error whose message names all three tools. -/
theorem spec_C6 (sys : EscSys) :
    (sys.runningAsRoot = true →
      escalate_permissions sys = ([], Except.ok none)) ∧
    (sys.runningAsRoot = false → sys.hasSudo = true →
      (escalate_permissions sys).1 = [Tool.sudo] ∧
      (sys.toolRes Tool.sudo = none →
        (escalate_permissions sys).2 = Except.ok (some Tool.sudo))) ∧
    (sys.runningAsRoot = false → sys.hasSudo = false → sys.hasDoas = true →
      (escalate_permissions sys).1 = [Tool.doas] ∧
      (sys.toolRes Tool.doas = none →
        (escalate_permissions sys).2 = Except.ok (some Tool.doas))) ∧
    (sys.runningAsRoot = false → sys.hasSudo = false → sys.hasDoas = false →
      sys.hasPkexec = true →
      (escalate_permissions sys).1 = [Tool.pkexec] ∧
      (sys.toolRes Tool.pkexec = none →
        (escalate_permissions sys).2 = Except.ok (some Tool.pkexec))) ∧
    (sys.runningAsRoot = false → sys.hasSudo = false → sys.hasDoas = false →
      sys.hasPkexec = false →
      escalate_permissions sys = ([], Except.error escalateFailMsg) ∧
      strHasSub escalateFailMsg "sudo" = true ∧
      strHasSub escalateFailMsg "doas" = true ∧
      strHasSub escalateFailMsg "pkexec" = true) := by
  refine ⟨?_, ?_, ?_, ?_, ?_⟩
  · intro hroot
    simp [escalate_permissions, hroot]
  · intro hroot hsudo
    refine ⟨by simp [escalate_permissions, hroot, hsudo], ?_⟩
    intro hres
    simp [escalate_permissions, hroot, hsudo, hres]
  · intro hroot hsudo hdoas
    refine ⟨by simp [escalate_permissions, hroot, hsudo, hdoas], ?_⟩
    intro hres
    simp [escalate_permissions, hroot, hsudo, hdoas, hres]
  · intro hroot hsudo hdoas hpk
    refine ⟨by simp [escalate_permissions, hroot, hsudo, hdoas, hpk], ?_⟩
    intro hres
    simp [escalate_permissions, hroot, hsudo, hdoas, hpk, hres]
  · intro hroot hsudo hdoas hpk
    refine ⟨by simp [escalate_permissions, hroot, hsudo, hdoas, hpk],
      by decide, by decide, by decide⟩

theorem spec_C6_witness :
    escalate_permissions esysNone = ([], Except.error escalateFailMsg) ∧
    strHasSub escalateFailMsg "sudo" = true ∧
    strHasSub escalateFailMsg "doas" = true ∧
    strHasSub escalateFailMsg "pkexec" = true :=
  (spec_C6 esysNone).2.2.2.2 rfl rfl rfl rfl

/-- Claim C7: the read-only Get command path never invokes the
privilege-escalation gate nor the secondary escalation chain,
regardless of the process identity and of how the queries turn out. -/
theorem spec_C7 (sys : EscSys) (env : Env) (i : Nat) :
    Action.escalate ∉ (runCommand sys env (CliCommand.get i)).1 ∧
    Action.sudoChain ∉ (runCommand sys env (CliCommand.get i)).1 := by
  cases hinit : env.nvmlInitOk with
  | false => simp [runCommand, hinit]
  | true =>
    cases hres : env.resolve i with
    | none => simp [runCommand, hinit, hres]
    | some d => simp [runCommand, hinit, hres]

/-- Claim C8: the report path queries each displayable attribute
independently — the report always has its six lines, a failing
power-limit query yields exactly one diagnostic line for that
attribute while the succeeding offset queries keep their own lines,
and the remaining lines are each determined by their own query
alone. -/
theorem spec_C8 (d : Device) (v1 v2 : Int) (e : NvmlError)
    (h1 : d.gpcOffsetRead = Except.ok v1)
    (h2 : d.memOffsetRead = Except.ok v2)
    (h3 : d.enforcedPowerLimit = Except.error e) :
    (report d).length = 6 ∧
    report d =
      [ReportLine.out ("GPU core clock offset: " ++ toString v1 ++ " MHz"),
       ReportLine.out ("GPU memory clock offset: " ++ toString v2 ++ " MHz"),
       ReportLine.err ("Failed to get GPU power limit: " ++ reprNvmlError e),
       powerRangeLine d.powerConstraints,
       acousticLine (get_acoustic_temperature d),
       acousticRangeLine (get_acoustic_temperature_range d)] := by
  refine ⟨rfl, ?_⟩
  simp [report, coreOffsetLine, memOffsetLine, powerLimitLine, h1, h2, h3]

theorem spec_C8_witness :
    (report devReport).length = 6 ∧
    report devReport =
      [ReportLine.out ("GPU core clock offset: " ++ toString (150 : Int) ++ " MHz"),
       ReportLine.out ("GPU memory clock offset: " ++ toString (800 : Int) ++ " MHz"),
       ReportLine.err ("Failed to get GPU power limit: " ++
         reprNvmlError NvmlError.notSupported),
       powerRangeLine devReport.powerConstraints,
       acousticLine (get_acoustic_temperature devReport),
       acousticRangeLine (get_acoustic_temperature_range devReport)] :=
  spec_C8 devReport 150 800 NvmlError.notSupported rfl rfl rfl

/-- Claim C9: for every spec with exactly one populated field (a
locked clock range, min and max together, counting as one field) and
every device, applying the spec issues exactly one underlying write
call, and that call targets the populated field. -/
theorem spec_C9 (s : Sets) (d : Device) (f : SpecField)
    (h : exactlyOne s f) :
    ∃ c, (Sets.apply s d).1 = [c] ∧ callField c = f := by
  obtain ⟨c, hexp, hcf⟩ := exactlyOne_expected h
  obtain ⟨⟨t, ht⟩, hok, hfail⟩ := apply_spec s d
  refine ⟨c, ?_, hcf⟩
  rw [hexp] at ht
  cases htr : (Sets.apply s d).1 with
  | nil =>
    exfalso
    cases h2 : (Sets.apply s d).2 with
    | none =>
      have h3 := (hok h2).1
      rw [htr, hexp] at h3
      simp at h3
    | some m =>
      obtain ⟨tr, c', hdec, _, _⟩ := hfail m h2
      rw [htr] at hdec
      exact absurd hdec.symm (by simp)
  | cons a tl =>
    rw [htr] at ht
    simp only [List.cons_append, List.cons.injEq] at ht
    obtain ⟨rfl, h4⟩ := ht
    have h5 := List.append_eq_nil.mp h4
    rw [h5.1]

theorem spec_C9_witness :
    ∃ c, (Sets.apply (powerOnly 250000) devAccept).1 = [c] ∧
      callField c = SpecField.power :=
  spec_C9 (powerOnly 250000) devAccept SpecField.power
    ⟨rfl, by
      intro g hg
      cases g <;> first | rfl | exact absurd rfl hg⟩

/-- Claim C10: the mutating threshold call converts the requested
unsigned 32-bit value to the signed form of the raw vendor call by
two's-complement reinterpretation — the raw call receives exactly the
reinterpreted value, which is congruent to the request modulo 2^32, is
negative for requests of at least 2^31, and equals the request below
2^31. -/
theorem spec_C10 (d : Device) (t : Nat) (h32 : t < 2 ^ 32)
    (hlib : d.lib1 = true ∨ d.lib2 = true) :
    (set_acoustic_temperature d t).1 =
      [RawCall.setTempThreshold (u32ToI32 t)] ∧
    u32ToI32 t % 2 ^ 32 = (t : Int) % 2 ^ 32 ∧
    (2 ^ 31 ≤ t → u32ToI32 t < 0) ∧
    (t < 2 ^ 31 → u32ToI32 t = (t : Int)) := by
  have hm : t % 2 ^ 32 = t := Nat.mod_eq_of_lt h32
  refine ⟨?_, ?_, ?_, ?_⟩
  · rcases hlib with h | h <;> simp [set_acoustic_temperature, h]
  · simp only [u32ToI32, hm]
    split
    · rfl
    · omega
  · intro h31
    simp only [u32ToI32, hm]
    rw [if_neg (by omega)]
    omega
  · intro h31
    simp only [u32ToI32, hm]
    rw [if_pos (by exact_mod_cast h31)]

theorem spec_C10_witness :
    (set_acoustic_temperature devAccept (2 ^ 31)).1 =
      [RawCall.setTempThreshold (u32ToI32 (2 ^ 31))] ∧
    u32ToI32 (2 ^ 31) % 2 ^ 32 = ((2 ^ 31 : Nat) : Int) % 2 ^ 32 ∧
    (2 ^ 31 ≤ 2 ^ 31 → u32ToI32 (2 ^ 31) < 0) ∧
    ((2 ^ 31 : Nat) < 2 ^ 31 → u32ToI32 (2 ^ 31) = ((2 ^ 31 : Nat) : Int)) :=
  spec_C10 devAccept (2 ^ 31) (by norm_num) (Or.inl rfl)

end NvidiaOc
